import Mathlib

/-!
Verification development for the `epistasis` package.

The Python sources embedded here are:
* `epistasis/models.py` — `LocalEpistasisModel`, `GlobalEpistasisModel`
  (closed-form solves and error propagation), `hadamard_weight_vector`;
* `epistasis/models/mixed.py` — `EpistasisMixedRegression`
  (`fit`, `predict`, `hypothesis`, `lnlikelihood`, `thetas`).

Pure numeric code is embedded over `ℚ`; the parts of `lnlikelihood` whose
behaviour depends on IEEE-754 non-finite values (`inf`, `nan`) are embedded
over an explicit extended-value type `ExtFloat` mirroring IEEE special-value
propagation.  Code of the repository that is not under `src/`
(`generate_dv_matrix` from `epistasis.regression_ext`, the classifier's
coefficient layout from `epistasis.models.classifiers`) is modelled from the
spec where needed, and marked as such.
-/

namespace Epistasis

/-! ## `epistasis/models.py`: LocalEpistasisModel

`LocalEpistasisModel.__init__` builds `self.X` from the binary genotypes and
interaction labels and stores `self.X_inv = np.linalg.inv(self.X)`.

`estimate_interactions` (models.py line 106):
`self.Interactions.values = np.dot(self.X_inv, self.Binary.phenotypes)`.
-/

/-- Computable matrix inverse over `ℚ` (adjugate divided by determinant), the
exact-arithmetic counterpart of `np.linalg.inv`.  Agrees with Mathlib's
noncomputable `Matrix.inv` (see `matInv_eq_inv`). -/
def matInv {n : ℕ} (X : Matrix (Fin n) (Fin n) ℚ) : Matrix (Fin n) (Fin n) ℚ :=
  (X.det)⁻¹ • X.adjugate

/-- Embedding of `LocalEpistasisModel.estimate_interactions`: the coefficient
vector is the matrix inverse of the design matrix applied to the phenotype
vector (`np.dot(self.X_inv, self.Binary.phenotypes)`). -/
def localEstimateInteractions {n : ℕ} (X : Matrix (Fin n) (Fin n) ℚ)
    (phenotypes : Fin n → ℚ) : Fin n → ℚ :=
  (matInv X).mulVec phenotypes

/-- Embedding of the symmetric-error branch of
`LocalEpistasisModel.estimate_error` (models.py line 119):
`self.Interactions.errors = np.sqrt(np.dot(self.X, self.Binary.errors**2))`.
The code stores the square root; this definition is the radicand
`np.dot(self.X, errors**2)`, i.e. the square of the stored error bar
(the variance of each interaction coefficient). -/
def localErrorVariance {n m : ℕ} (X : Matrix (Fin n) (Fin m) ℚ)
    (errors : Fin m → ℚ) : Fin n → ℚ :=
  fun i => ∑ j, X i j * (errors j) ^ 2

/-! ## `epistasis/models.py`: GlobalEpistasisModel

`hadamard_weight_vector` (models.py lines 22-30) builds a diagonal matrix
whose `g`-th diagonal entry is `((-1)**k)/(2**(n-k))` where `k` is the number
of `"1"` characters in the `g`-th binary genotype string.  `Binary.genotypes`
enumerates the binary genotypes ordered by their binary value (models.py
docstring, lines 89-91), so the `g`-th genotype string is the `n`-bit binary
encoding of `g` and its `"1"`-count is the population count of `g`.

`GlobalEpistasisModel.__init__` sets `self.X = hadamard(2**self.length)`
(scipy's Sylvester Hadamard matrix) and `estimate_interactions`
(models.py line 139) computes
`np.dot(self.weight_vector, np.dot(self.X, self.Binary.phenotypes))`.
-/

/-- Number of `1` bits in the binary encoding of `g` — the `"1"`-count of the
`g`-th binary genotype string (`genotypes[g].count("1")`, models.py line 28). -/
def countOnes : ℕ → ℕ
  | 0 => 0
  | n + 1 => (n + 1) % 2 + countOnes ((n + 1) / 2)
decreasing_by exact Nat.div_lt_self (Nat.succ_pos n) (by norm_num)

/-- Embedding of `hadamard_weight_vector` (models.py lines 22-30): the `g`-th
diagonal weight `((-1)**epistasis)/(2**(n-epistasis))` with
`epistasis = genotypes[g].count("1")`. -/
def hadamardWeight (n g : ℕ) : ℚ :=
  ((-1 : ℚ) ^ countOnes g) / (2 ^ (n - countOnes g))

/-- Sylvester Hadamard matrix entry, as built by `scipy.linalg.hadamard(2**n)`:
`H_1 = [1]`, `H_{2m} = [[H_m, H_m], [H_m, -H_m]]`.  `Had n i j` is the entry
at row `i`, column `j` of the `2^n × 2^n` matrix, for `i j < 2^n`. -/
def Had : ℕ → ℕ → ℕ → ℚ
  | 0, _, _ => 1
  | n + 1, i, j =>
    (if 2 ^ n ≤ i ∧ 2 ^ n ≤ j then (-1 : ℚ) else 1) * Had n (i % 2 ^ n) (j % 2 ^ n)

/-- Embedding of `GlobalEpistasisModel.estimate_interactions` (models.py line
139): `values = np.dot(weight_vector, np.dot(X, phenotypes))` with
`weight_vector` diagonal, so the `g`-th value is
`weight(g) * Σ_j H[g][j] * phenotypes[j]`. -/
def globalEstimateInteractions (n : ℕ) (phenotypes : ℕ → ℚ) (g : ℕ) : ℚ :=
  hadamardWeight n g * ∑ j ∈ Finset.range (2 ^ n), Had n g j * phenotypes j

/-- The spec's claimed shape for the Global model's coefficient vector on a
constant phenotype vector: exactly one nonzero entry, at the zeroth-order
position (index `0`), zeros at all higher-order positions. -/
def SingleNonzeroAtZero (n : ℕ) (v : ℕ → ℚ) : Prop :=
  v 0 ≠ 0 ∧ ∀ g, 0 < g → g < 2 ^ n → v g = 0

/-! ## IEEE-754 special values

`EpistasisMixedRegression.lnlikelihood` manipulates numpy floats whose
non-finite behaviour (`inf`, `-inf`, `nan`) is what claims about it turn on.
`ExtFloat` is a rational magnitude extended with the IEEE special values, and
the arithmetic below follows the IEEE-754 special-value propagation rules that
numpy implements (`inf - inf = nan`, `0 * inf = nan`, `1/0 = inf`,
`log 0 = -inf`, `log` of a negative is `nan`, `nan` propagates). -/

inductive ExtFloat where
  | fin (q : ℚ)
  | pinf
  | ninf
  | nan
deriving DecidableEq

namespace ExtFloat

/-- IEEE negation. -/
def neg : ExtFloat → ExtFloat
  | fin q => fin (-q)
  | pinf => ninf
  | ninf => pinf
  | nan => nan

/-- IEEE addition: `nan` propagates, opposite infinities give `nan`. -/
def add : ExtFloat → ExtFloat → ExtFloat
  | nan, _ => nan
  | _, nan => nan
  | pinf, ninf => nan
  | ninf, pinf => nan
  | pinf, _ => pinf
  | _, pinf => pinf
  | ninf, _ => ninf
  | _, ninf => ninf
  | fin a, fin b => fin (a + b)

/-- IEEE subtraction. -/
def sub (a b : ExtFloat) : ExtFloat := add a (neg b)

/-- IEEE multiplication: `nan` propagates, `0 * ±inf = nan`, otherwise
infinities carry the product of the signs. -/
def mul : ExtFloat → ExtFloat → ExtFloat
  | nan, _ => nan
  | _, nan => nan
  | fin a, fin b => fin (a * b)
  | pinf, fin b => if 0 < b then pinf else if b < 0 then ninf else nan
  | ninf, fin b => if 0 < b then ninf else if b < 0 then pinf else nan
  | fin a, pinf => if 0 < a then pinf else if a < 0 then ninf else nan
  | fin a, ninf => if 0 < a then ninf else if a < 0 then pinf else nan
  | pinf, pinf => pinf
  | pinf, ninf => ninf
  | ninf, pinf => ninf
  | ninf, ninf => pinf

/-- IEEE division (unsigned zero, as no negative zero arises here):
a nonzero finite value divided by zero gives a signed infinity,
`0/0` and `inf/inf` give `nan`, a finite value divided by an infinity is `0`. -/
def div : ExtFloat → ExtFloat → ExtFloat
  | nan, _ => nan
  | _, nan => nan
  | fin a, fin b =>
      if b = 0 then (if 0 < a then pinf else if a < 0 then ninf else nan)
      else fin (a / b)
  | fin _, pinf => fin 0
  | fin _, ninf => fin 0
  | pinf, fin b => if b < 0 then ninf else pinf
  | ninf, fin b => if b < 0 then pinf else ninf
  | pinf, pinf => nan
  | pinf, ninf => nan
  | ninf, pinf => nan
  | ninf, ninf => nan

/-- `np.log` on extended values: `log 0 = -inf`, `log` of a negative value is
`nan`, `log inf = inf`, `log (-inf) = nan`; on a positive finite argument the
(irrational) value is supplied by the abstract logarithm `rlog`, whose exact
finite values are irrelevant to finiteness claims. -/
def log (rlog : ℚ → ℚ) : ExtFloat → ExtFloat
  | nan => nan
  | pinf => pinf
  | ninf => nan
  | fin q => if q < 0 then nan else if q = 0 then ninf else fin (rlog q)

/-- `np.isinf`: true exactly on the two infinities (false on `nan`). -/
def isInf : ExtFloat → Bool
  | pinf => true
  | ninf => true
  | _ => false

/-- `np.isfinite`: true exactly on finite values (`nan` is not finite). -/
def isFinite : ExtFloat → Bool
  | fin _ => true
  | _ => false

end ExtFloat

/-! ## `epistasis/models/mixed.py`: pointwise array operations

The sub-models (`EpistasisPowerTransform`, `EpistasisLogisticRegression`) live
outside `src/`, so their `predict`/`hypothesis` outputs enter the embedding as
parameters (`ymodel`, `yclasses`, `proba`, ...).  numpy arrays of one value
per genotype are embedded as functions `ℕ → ℚ` read at indices below the row
count. -/

/-- Embedding of the class-forcing step of `EpistasisMixedRegression.predict`
(mixed.py lines 381-394): after the quantitative prediction `ypred` and the
classifier prediction `yclasses` are obtained (in both the `X is None` and the
explicit-`X` branch), `ypred[yclasses==0] = 0`. -/
def predictMixed (ymodel yclasses : ℕ → ℚ) (i : ℕ) : ℚ :=
  if yclasses i = 0 then 0 else ymodel i

/-- Embedding of the class computation shared by
`EpistasisMixedRegression.hypothesis` (mixed.py lines 409-410) and
`lnlikelihood` (lines 451-452): `classes = np.ones(len(proba));
classes[proba < 0.5] = 0`.  The `0.5` cutoff is a literal in the source; this
definition takes no threshold parameter. -/
def mixedClasses (proba : ℕ → ℚ) (i : ℕ) : ℚ :=
  if proba i < 1 / 2 then 0 else 1

/-- Embedding of the model-output step of `EpistasisMixedRegression.hypothesis`
(mixed.py lines 413-414): `y = self.Model.hypothesis(thetas=thetas2);
y[classes==0] = 0`, with the model hypothesis output `ymodel` a parameter. -/
def mixedHypothesis (proba ymodel : ℕ → ℚ) (i : ℕ) : ℚ :=
  if mixedClasses proba i = 0 then 0 else ymodel i

/-- Embedding of `binarize(ydata, threshold=self.threshold)[0]` (mixed.py line
440): `sklearn.preprocessing.binarize` maps a value to `1` when it is strictly
greater than the threshold, else `0`.  This is the only place the
construction-time `threshold` parameter appears in `lnlikelihood`. -/
def mixedYbin (threshold : ℚ) (ydata : ℕ → ℚ) (i : ℕ) : ℚ :=
  if threshold < ydata i then 1 else 0

/-! ## `EpistasisMixedRegression.lnlikelihood` (mixed.py lines 418-476)

Row data: `ydata`/`yerr` are the attached phenotypes and their uncertainties,
`proba = self.Classifier.hypothesis(X=Xclass, thetas=thetas1)` and
`ymodel = self.Model.hypothesis(X=X, thetas=thetas2)` are the sub-model
hypothesis outputs for the supplied `thetas` (sub-models outside `src/`,
hence parameters).  `n` is the number of rows. -/

/-- One row of `lnlikelihood = ybin * np.log(y_class_prob) +
(1 - ybin) * np.log(1 - y_class_prob)` (mixed.py line 464). -/
def bernoulliTerm (rlog : ℚ → ℚ) (ybin proba : ℚ) : ExtFloat :=
  ExtFloat.add
    (ExtFloat.mul (ExtFloat.fin ybin) (ExtFloat.log rlog (ExtFloat.fin proba)))
    (ExtFloat.mul (ExtFloat.fin (1 - ybin)) (ExtFloat.log rlog (ExtFloat.fin (1 - proba))))

/-- One row of `inv_sigma2 = 1.0/(yerr**2)` (mixed.py line 467). -/
def invSigma2 (yerr : ℚ) : ExtFloat :=
  ExtFloat.div (ExtFloat.fin 1) (ExtFloat.mul (ExtFloat.fin yerr) (ExtFloat.fin yerr))

/-- One row of `lngaussian = (ydata-ymodel)**2*inv_sigma2 - np.log(inv_sigma2)`
(mixed.py line 468), where `ymodel` is the model output after the dead-class
zeroing `ymodel[classes==0] = 0` (line 459). -/
def lngaussianTerm (rlog : ℚ → ℚ) (ydata ymodel yerr : ℚ) : ExtFloat :=
  ExtFloat.sub
    (ExtFloat.mul
      (ExtFloat.mul
        (ExtFloat.sub (ExtFloat.fin ydata) (ExtFloat.fin ymodel))
        (ExtFloat.sub (ExtFloat.fin ydata) (ExtFloat.fin ymodel)))
      (invSigma2 yerr))
    (ExtFloat.log rlog (invSigma2 yerr))

/-- One row of the combined array after
`lnlikelihood[ybin==1] = np.add(lnlikelihood[ybin==1], lngaussian[ybin==1])`
(mixed.py line 469): the Gaussian term joins only rows whose binarized
phenotype is `1`. -/
def mixedRowTerm (rlog : ℚ → ℚ) (threshold : ℚ) (ydata yerr proba ymodel : ℕ → ℚ)
    (i : ℕ) : ExtFloat :=
  let ybin := mixedYbin threshold ydata i
  let ym := mixedHypothesis proba ymodel i
  let bern := bernoulliTerm rlog ybin (proba i)
  if ybin = 1 then ExtFloat.add bern (lngaussianTerm rlog (ydata i) ym (yerr i))
  else bern

/-- The combined mixed log-likelihood value
`-0.5 * sum(lnlikelihood)` (mixed.py line 470), before the final
non-finiteness check.  Python's builtin `sum` folds the rows from the left
starting at `0`. -/
def mixedCombined (rlog : ℚ → ℚ) (threshold : ℚ) (n : ℕ)
    (ydata yerr proba ymodel : ℕ → ℚ) : ExtFloat :=
  ExtFloat.mul (ExtFloat.fin (-(1 / 2)))
    (((List.range n).map (mixedRowTerm rlog threshold ydata yerr proba ymodel)).foldl
      ExtFloat.add (ExtFloat.fin 0))

/-- The final clamp of `lnlikelihood` (mixed.py lines 473-474):
`if np.isinf(lnlikelihood): return -np.inf`. -/
def clampInf (v : ExtFloat) : ExtFloat :=
  if v.isInf then ExtFloat.ninf else v

/-- Embedding of the value returned by `EpistasisMixedRegression.lnlikelihood`:
the combined value, with infinities clamped to `-inf`. -/
def mixedLnlik (rlog : ℚ → ℚ) (threshold : ℚ) (n : ℕ)
    (ydata yerr proba ymodel : ℕ → ℚ) : ExtFloat :=
  clampInf (mixedCombined rlog threshold n ydata yerr proba ymodel)

/-- Abstract logarithm instance used by concrete evaluations; the finite values
of `np.log` are irrelevant to the non-finiteness claims, only the special-value
cases fixed in `ExtFloat.log` matter. -/
def zeroLog : ℚ → ℚ := fun _ => 0

/-! ## `EpistasisMixedRegression.thetas` and the `hypothesis` split

`thetas` (mixed.py line 485):
`np.concatenate((self.Classifier.thetas, self.Model.thetas))`.
`hypothesis` (lines 404-405) and `lnlikelihood` (lines 445-446) split a
supplied vector as `thetas[0:len(self.Classifier.coef_[0])]` and
`thetas[len(self.Classifier.coef_[0]):]`. -/

/-- Embedding of the `thetas` property: classifier coefficients first, then
model coefficients. -/
def mixedThetas (classifierThetas modelThetas : List ℚ) : List ℚ :=
  classifierThetas ++ modelThetas

/-- Embedding of the split performed by `hypothesis` and `lnlikelihood` at
position `clen = len(self.Classifier.coef_[0])`. -/
def thetasSplit (clen : ℕ) (thetas : List ℚ) : List ℚ × List ℚ :=
  (thetas.take clen, thetas.drop clen)

/-- Modelled from the spec: `EpistasisLogisticRegression`
(`epistasis/models/classifiers.py`, not under `src/`) exposes its fitted
coefficients both as the row `coef_[0]` of the scikit-learn coefficient matrix
and as its `thetas` parameter vector; the spec fixes the mixed model's slicing
point at exactly `len(classifier.coef_)`, the classifier coefficient count,
which therefore equals the length of the classifier's `thetas` vector. -/
def classifierCoefCount (classifierThetas : List ℚ) : ℕ :=
  classifierThetas.length

/-! ## `EpistasisMixedRegression.fit` (mixed.py lines 92-252)

Python exceptions raised along the way. `nameError` models a `NameError` from
evaluating an undefined name (mixed.py line 139 reads `pd.Series` but the
module never imports `pandas`, and line 141 names the undefined
`FittiungError`); `attributeError` models reading an attribute that was never
set. -/

inductive PyErr where
  | fittingError (msg : String)
  | xMatrixException (msg : String)
  | nameError (missing : String)
  | attributeError (missing : String)
deriving DecidableEq

/-- An argument that is either a literal selector string or a literal array. -/
inductive FitArg (α : Type) where
  | str (s : String)
  | arr (a : α)

/-- numpy boolean-mask selection `xs[mask]`: keep the entries at `true`
positions, in order (truncating at the shorter length, as a mask and array of
equal length is the only case the source produces). -/
def maskFilter {α : Type} : List Bool → List α → List α
  | [], _ => []
  | _, [] => []
  | b :: bs, x :: xs => if b then x :: maskFilter bs xs else maskFilter bs xs

/-- The boolean mask `ypred == 1` applied to the classifier's predicted
labels. -/
def aliveMask (ypred : List ℤ) : List Bool :=
  ypred.map (fun v => v == 1)

/-- The positions a boolean mask keeps. -/
def aliveIndices (mask : List Bool) : List ℕ :=
  (List.range mask.length).filter (fun i => mask.getD i false)

/-- The arguments handed to `self.Model.fit(X=self.Xfit, y=y, ...)`. -/
structure ModelFitCall where
  yFit : List ℚ
  xFit : List (List ℚ)
deriving DecidableEq

/-- What a completed `fit` call did: the classifier's predicted labels, the
phenotype vector and design matrix as they stood before the dead-row
filtering, and the arguments of the `Model.fit` invocation (`none` when the
quantitative model was not fit, as in the cached `try` branch of mixed.py
lines 147-151). -/
structure FitTrace where
  ypred : List ℤ
  yBefore : List ℚ
  xBefore : List (List ℚ)
  modelFit : Option ModelFitCall
deriving DecidableEq

/-- The dead-row filtering and model fit of mixed.py lines 204-211 and 235-242:
`y = y[ypred==1]; y = y.reset_index(drop=True); self.Xfit =
self.Xfit[ypred==1,:]` followed by `self.Model.fit(X=self.Xfit, y=y, ...)`. -/
def fitFilterStep (ypred : List ℤ) (y : List ℚ) (Xfit : List (List ℚ)) : FitTrace :=
  { ypred := ypred
    yBefore := y
    xBefore := Xfit
    modelFit := some ⟨maskFilter (aliveMask ypred) y, maskFilter (aliveMask ypred) Xfit⟩ }

/-- `X.shape[1]`, the column count of a row-major matrix. -/
def colCount (X : List (List ℚ)) : ℕ :=
  (X.headD []).length

/-- The trace left by the `try` branch of mixed.py lines 147-151: the
classifier is refit on the cached matrices but the quantitative model is not
touched. -/
def cachedTrace (y : List ℚ) : FitTrace :=
  ⟨[], y, [], none⟩

/-- Embedding of `EpistasisMixedRegression.fit`.

Parameters standing for state and collaborators outside the method body:
`gpmPhenotypes` is `self.gpm.binary.phenotypes`; `xClassObs`/`xClassComplete`
and `xObs`/`xComplete` are the classifier and model matrices
`get_model_matrix(index, sites, ...)` built for the `obs`/`complete` genotype
index (`get_model_matrix` is from `epistasis.model_matrix_ext`, outside
`src/`); `classifierPredict` is the fitted classifier's `predict`;
`cached` selects the `try` branch of lines 147-151 (both `Xbuilt` entries
present); `prevXclass`/`prevXfit` are `self.Xclass`/`self.Xfit` left by an
earlier fit (`none` when the attribute was never set).

The steps mirror the source order: the string-mismatch check (line 123), the
array-dimension check (line 128), the `y` handling (lines 134-142, where any
`y` other than the strings `obs`/`complete` reaches the unimported name
`pd` and dies with a `NameError`), then the `X` handling. -/
def mixedFit (Xarg : FitArg (List (List ℚ))) (yarg : FitArg (List ℚ))
    (gpmPhenotypes : List ℚ)
    (xClassObs xClassComplete xObs xComplete : List (List ℚ))
    (classifierPredict : List (List ℚ) → List ℤ)
    (cached : Bool)
    (prevXclass prevXfit : Option (List (List ℚ))) : Except PyErr FitTrace :=
  -- Lines 146-252: everything after the y resolution, as a function of the
  -- resolved y.
  let afterY : List ℚ → Except PyErr FitTrace := fun y =>
    -- Lines 146-151: the try branch refits only the classifier when both
    -- Xbuilt entries are present; the quantitative model is not touched.
    if cached then
      Except.ok (cachedTrace y)
    else
      -- Lines 156-252: the except branch.
      match Xarg with
      | .str s =>
          -- Lines 159-164: select the genotype index; lines 181-188: fit the
          -- classifier and predict classes; lines 204-211: drop the rows
          -- predicted dead and fit the quantitative model.
          if s = "obs" then
            Except.ok (fitFilterStep (classifierPredict xClassObs) y xObs)
          else if s = "complete" then
            Except.ok (fitFilterStep (classifierPredict xClassComplete) y xComplete)
          else
            Except.error (.xMatrixException "X string argument is not valid.")
      | .arr Xa =>
          -- Line 222: X.shape[0] must match len(y).
          if Xa.length ≠ y.length then
            Except.error (.xMatrixException "X dimensions do no match y.")
          else
            -- Lines 225-230: predict with self.Xclass from an earlier fit.
            match prevXclass with
            | none =>
                Except.error (.fittingError
                  "This fit method cannot accept an array argument for X until the Classifier fit method is called.")
            | some xClass =>
                let ypred := classifierPredict xClass
                -- Lines 232-233.
                if ypred.length ≠ y.length then
                  Except.error (.fittingError "len(y) is not compatible with the Classifier X matrix.")
                else
                  -- Lines 235-242: the filtering reads self.Xfit from the
                  -- earlier fit (not the passed X), then fits the model.
                  match prevXfit with
                  | none => Except.error (.attributeError "Xfit")
                  | some xFitPrev => Except.ok (fitFilterStep ypred y xFitPrev)
  -- Lines 134-142: resolve y.  Any argument other than the strings
  -- "obs"/"complete" falls into the elif whose condition reads the unimported
  -- name pd, raising a NameError before any fitting runs.
  let handleY : Except PyErr FitTrace :=
    match yarg with
    | .str s =>
        if s = "obs" ∨ s = "complete" then afterY gpmPhenotypes
        else Except.error (.nameError "pd")
    | .arr _ => Except.error (.nameError "pd")
  -- Lines 120-129: sanity checks on the input, before anything else.
  match Xarg, yarg with
  | .str sX, .str sY =>
      -- Line 123: strings passed to X and y must agree.
      if sX ≠ sY then
        Except.error (.fittingError
          "Any string passed to X must be the same as any string passed to y.")
      else handleY
  | .arr Xa, .arr ya =>
      -- Line 128: for two arrays, compare X.shape[1] with y.shape[0].
      if colCount Xa ≠ ya.length then
        Except.error (.fittingError "X dimensions and y dimensions do not match.")
      else handleY
  | _, _ => handleY

/-- The property claimed of every completed `fit`: whenever `Model.fit` was
invoked, its phenotype vector and design matrix are exactly the rows of the
pre-filter data at an increasing list of indices, all of which the classifier
labelled `1`, and which contains every index labelled `1`. -/
def AliveRowsOnly (tr : FitTrace) : Prop :=
  ∀ c, tr.modelFit = some c →
    ∃ idx : List ℕ,
      idx.Pairwise (· < ·)
      ∧ (∀ i ∈ idx, i < tr.ypred.length ∧ tr.ypred.getD i 0 = 1)
      ∧ (∀ i, i < tr.ypred.length → tr.ypred.getD i 0 = 1 → i ∈ idx)
      ∧ c.yFit = idx.filterMap (fun i => tr.yBefore[i]?)
      ∧ c.xFit = idx.filterMap (fun i => tr.xBefore[i]?)

/-! ## Helper lemmas -/

lemma matInv_eq_inv {n : ℕ} (X : Matrix (Fin n) (Fin n) ℚ) : matInv X = X⁻¹ := by
  rw [Matrix.inv_def, matInv, Ring.inverse_eq_inv']

/-- Row sums of the Sylvester Hadamard matrix: the wildtype row (row `0`) sums
to `2^n`, every other row sums to `0`. -/
lemma had_row_sum : ∀ (n : ℕ), ∀ i < 2 ^ n,
    (∑ j ∈ Finset.range (2 ^ n), Had n i j) = if i = 0 then (2 ^ n : ℚ) else 0 := by
  intro n
  induction n with
  | zero =>
    intro i hi
    interval_cases i
    simp [Had]
  | succ n ih =>
    intro i hi
    have hsplit : (2 : ℕ) ^ (n + 1) = 2 ^ n + 2 ^ n := by ring
    have e1 : ∑ j ∈ Finset.range (2 ^ n), Had (n + 1) i j
        = ∑ j ∈ Finset.range (2 ^ n), Had n (i % 2 ^ n) j := by
      refine Finset.sum_congr rfl fun j hj => ?_
      have hj' : j < 2 ^ n := Finset.mem_range.mp hj
      have hc : ¬ (2 ^ n ≤ i ∧ 2 ^ n ≤ j) := fun h => absurd h.2 (not_le.mpr hj')
      simp [Had, hc, Nat.mod_eq_of_lt hj']
    have e2 : ∑ j ∈ Finset.range (2 ^ n), Had (n + 1) i (2 ^ n + j)
        = ∑ j ∈ Finset.range (2 ^ n),
            (if 2 ^ n ≤ i then (-1 : ℚ) else 1) * Had n (i % 2 ^ n) j := by
      refine Finset.sum_congr rfl fun j hj => ?_
      have hj' : j < 2 ^ n := Finset.mem_range.mp hj
      have hmod : (2 ^ n + j) % 2 ^ n = j := by
        rw [Nat.add_mod_left, Nat.mod_eq_of_lt hj']
      have hle : 2 ^ n ≤ 2 ^ n + j := Nat.le_add_right _ _
      by_cases hI : 2 ^ n ≤ i
      · simp [Had, hI, hle, hmod]
      · simp [Had, hI, hmod]
    rw [hsplit, Finset.sum_range_add, e1, e2]
    by_cases hI : 2 ^ n ≤ i
    · have h1 : (1 : ℕ) ≤ 2 ^ n := Nat.one_le_two_pow
      have hi0 : i ≠ 0 := by omega
      simp only [if_pos hI, neg_one_mul]
      rw [Finset.sum_neg_distrib, add_neg_cancel, if_neg hi0]
    · have hi' : i < 2 ^ n := not_le.mp hI
      simp only [if_neg hI, one_mul, Nat.mod_eq_of_lt hi']
      rw [ih i hi']
      by_cases h0 : i = 0
      · subst h0
        norm_num [pow_succ]
        ring
      · simp [h0]

/-! ## Characterization of numpy boolean-mask selection -/

lemma aliveIndices_nil : aliveIndices [] = [] := rfl

lemma aliveIndices_cons (b : Bool) (bs : List Bool) :
    aliveIndices (b :: bs)
      = (if b then [0] else []) ++ (aliveIndices bs).map Nat.succ := by
  unfold aliveIndices
  rw [List.length_cons, List.range_succ_eq_map, List.filter_cons, List.filter_map]
  cases b <;> simp [Function.comp_def]

lemma maskFilter_eq_filterMap {α : Type} :
    ∀ (mask : List Bool) (xs : List α),
      maskFilter mask xs = (aliveIndices mask).filterMap (fun i => xs[i]?) := by
  intro mask
  induction mask with
  | nil => intro xs; simp [maskFilter, aliveIndices_nil]
  | cons b bs ih =>
    intro xs
    cases xs with
    | nil =>
      simp [maskFilter]
    | cons x xs =>
      rw [aliveIndices_cons, List.filterMap_append, List.filterMap_map]
      cases b with
      | false => simpa [maskFilter, Function.comp_def] using ih xs
      | true => simpa [maskFilter, Function.comp_def] using ih xs

lemma mem_aliveIndices {mask : List Bool} {i : ℕ} :
    i ∈ aliveIndices mask ↔ i < mask.length ∧ mask.getD i false = true := by
  simp [aliveIndices, List.mem_filter, List.mem_range, and_comm]

lemma aliveIndices_pairwise (mask : List Bool) :
    (aliveIndices mask).Pairwise (· < ·) :=
  List.Pairwise.filter _ (List.pairwise_lt_range _)

lemma aliveMask_length (ypred : List ℤ) : (aliveMask ypred).length = ypred.length := by
  simp [aliveMask]

lemma aliveMask_getD {ypred : List ℤ} {i : ℕ} (hi : i < ypred.length) :
    (aliveMask ypred).getD i false = true ↔ ypred.getD i 0 = 1 := by
  unfold aliveMask
  rw [List.getD_eq_getElem?_getD, List.getD_eq_getElem?_getD, List.getElem?_map]
  rcases h : ypred[i]? with - | v
  · exact absurd (List.getElem?_eq_some_iff.mpr ⟨hi, rfl⟩) (by simp [h])
  · simp

lemma fitFilterStep_alive (ypred : List ℤ) (y : List ℚ) (Xfit : List (List ℚ)) :
    AliveRowsOnly (fitFilterStep ypred y Xfit) := by
  intro c hc
  refine ⟨aliveIndices (aliveMask ypred), aliveIndices_pairwise _, ?_, ?_, ?_, ?_⟩
  · intro i hi
    rw [mem_aliveIndices, aliveMask_length] at hi
    exact ⟨hi.1, (aliveMask_getD hi.1).mp hi.2⟩
  · intro i hlen h1
    rw [mem_aliveIndices, aliveMask_length]
    exact ⟨hlen, (aliveMask_getD hlen).mpr h1⟩
  · have := congrArg ModelFitCall.yFit (Option.some_injective _ hc.symm)
    simpa [fitFilterStep, maskFilter_eq_filterMap] using this
  · have := congrArg ModelFitCall.xFit (Option.some_injective _ hc.symm)
    simpa [fitFilterStep, maskFilter_eq_filterMap] using this

/-! ## Claim theorems -/

/-- C1: for every fitted `EpistasisMixedRegression` and every `predict` call
(with an explicit design matrix `X` or with none — both branches of
mixed.py lines 379-394 perform the same update `ypred[yclasses==0] = 0`), the
returned vector holds `0` at every position whose paired classifier output is
`0`, regardless of the quantitative model's prediction at that position. -/
theorem predict_zeroes_dead_classes (ymodel yclasses : ℕ → ℚ) (i : ℕ)
    (h : yclasses i = 0) : predictMixed ymodel yclasses i = 0 := by
  simp [predictMixed, h]

/-- C1 witness: at position `3` with classifier output `0` and quantitative
prediction `7`, the returned value is `0`. -/
theorem predict_zeroes_dead_classes_witness :
    (fun _ : ℕ => (0 : ℚ)) 3 = 0 ∧ predictMixed (fun _ => 7) (fun _ => 0) 3 = 0 :=
  ⟨rfl, predict_zeroes_dead_classes (fun _ => 7) (fun _ => 0) 3 rfl⟩

/-- C2: `thetas` is the concatenation of the classifier's coefficients followed
by the quantitative model's coefficients, so its length is the sum of the two
coefficient counts; and the split performed by `hypothesis`/`lnlikelihood` at
the classifier's coefficient count returns the classifier coefficients and the
model coefficients. -/
theorem thetas_concat_and_split (ct mt : List ℚ) :
    (mixedThetas ct mt).length = ct.length + mt.length
    ∧ thetasSplit (classifierCoefCount ct) (mixedThetas ct mt) = (ct, mt) := by
  constructor
  · simp [mixedThetas]
  · simp [thetasSplit, classifierCoefCount, mixedThetas]

/-- C3: for every pair of string selectors with `X ≠ y`,
`EpistasisMixedRegression.fit` raises a descriptive `FittingError` at the very
first sanity check (mixed.py line 123) — the same error for every classifier,
cached state and attached data, i.e. before any classifier or model
computation proceeds. -/
theorem fit_string_selector_mismatch_fails (sX sY : String) (h : sX ≠ sY)
    (gpm : List ℚ) (xco xcc xo xc : List (List ℚ))
    (cp : List (List ℚ) → List ℤ) (cached : Bool)
    (pxc pxf : Option (List (List ℚ))) :
    mixedFit (.str sX) (.str sY) gpm xco xcc xo xc cp cached pxc pxf
      = .error (.fittingError
          "Any string passed to X must be the same as any string passed to y.") := by
  simp [mixedFit, h]

/-- C3 witness: `fit(X="obs", y="complete")` fails with the `FittingError`. -/
theorem fit_string_selector_mismatch_witness :
    ("obs" : String) ≠ "complete"
    ∧ mixedFit (.str "obs") (.str "complete") [] [] [] [] [] (fun _ => [])
        false none none
      = .error (.fittingError
          "Any string passed to X must be the same as any string passed to y.") :=
  ⟨by decide,
    fit_string_selector_mismatch_fails "obs" "complete" (by decide)
      [] [] [] [] [] (fun _ => []) false none none⟩

/-- C4: for every successful `EpistasisMixedRegression.fit` call, the
quantitative model is fit only on rows the classifier predicted alive: the
arguments of the `Model.fit` invocation are the rows of the phenotype vector
and design matrix at an increasing list of indices containing exactly the
positions whose predicted label is `1` — every row at a position with
predicted label `0` is removed before `Model.fit` is invoked. -/
theorem fit_model_only_alive_rows
    (Xarg : FitArg (List (List ℚ))) (yarg : FitArg (List ℚ))
    (gpm : List ℚ) (xco xcc xo xc : List (List ℚ))
    (cp : List (List ℚ) → List ℤ) (cached : Bool)
    (pxc pxf : Option (List (List ℚ))) (tr : FitTrace)
    (hok : mixedFit Xarg yarg gpm xco xcc xo xc cp cached pxc pxf = .ok tr) :
    AliveRowsOnly tr := by
  have halive : ∀ yp y xf, Except.ok (fitFilterStep yp y xf)
      = (Except.ok tr : Except PyErr FitTrace) → AliveRowsOnly tr := by
    intro yp y xf h
    injection h with h
    rw [← h]
    exact fitFilterStep_alive yp y xf
  have hnone : ∀ y, Except.ok (cachedTrace y)
      = (Except.ok tr : Except PyErr FitTrace) → AliveRowsOnly tr := by
    intro y h c hc
    injection h with h
    rw [← h] at hc
    simp [cachedTrace] at hc
  simp only [mixedFit] at hok
  rcases Xarg with sX | Xa <;> rcases yarg with sY | ya <;>
    repeat' split at hok
  all_goals first
    | exact halive _ _ _ hok
    | exact hnone _ hok
    | simp at hok

/-- C4 witness: a concrete successful fit with predicted labels `[1, 0]`
drops the second row of both the phenotype vector and the design matrix. -/
theorem fit_model_only_alive_rows_witness :
    mixedFit (.str "obs") (.str "obs") [1, 2] [[1], [1]] [] [[10], [20]] []
        (fun _ => [1, 0]) false none none
      = Except.ok (FitTrace.mk [1, 0] [1, 2] [[10], [20]] (some ⟨[1], [[10]]⟩))
    ∧ AliveRowsOnly (FitTrace.mk [1, 0] [1, 2] [[10], [20]] (some ⟨[1], [[10]]⟩)) := by
  have h : mixedFit (.str "obs") (.str "obs") [1, 2] [[1], [1]] [] [[10], [20]] []
      (fun _ => [1, 0]) false none none
      = Except.ok (FitTrace.mk [1, 0] [1, 2] [[10], [20]] (some ⟨[1], [[10]]⟩)) := by
    rfl
  exact ⟨h, fit_model_only_alive_rows _ _ _ _ _ _ _ _ _ _ _ _ h⟩

/-- C5: the code dies on every literal-array `y`.  `fit`'s docstring and the
spec accept a numpy array / pandas Series for `y`, but the `elif` guarding
that case (mixed.py line 139) reads `pd.Series` with `pandas` never imported,
so a literal numeric `y` whose shape matches `X` raises `NameError: name pd is
not defined` instead of being accepted (and the raise it guards names the
undefined `FittiungError`, line 141). Here `X = [[1]]`, `y = [2]` with
matching shapes passes the line-128 dimension check and then crashes. -/
theorem fit_literal_array_y_raises_nameerror :
    mixedFit (.arr [[1]]) (.arr [2]) [] [] [] [] [] (fun _ => []) false none none
      = .error (.nameError "pd") := by
  rfl

/-- C6 counterexample: the claim says a non-finite combined log-likelihood is
returned as negative infinity, but the code checks only `np.isinf` (mixed.py
line 473), which is false on `nan`.  With one row, `ydata = 1 > threshold = 0`
(so the Gaussian term is added), `yerr = 0` (so `inv_sigma2 = 1/0 = inf`) and
model output `0`, the row is `1*inf - log(inf) = inf - inf = nan`, the
combined value is non-finite, and `lnlikelihood` returns `nan`, not `-inf`. -/
theorem lnlik_nonfinite_counterexample :
    (mixedCombined zeroLog 0 1 (fun _ => 1) (fun _ => 0) (fun _ => 1 / 2)
        (fun _ => 0)).isFinite = false
    ∧ mixedLnlik zeroLog 0 1 (fun _ => 1) (fun _ => 0) (fun _ => 1 / 2)
        (fun _ => 0) ≠ ExtFloat.ninf := by
  have h : mixedCombined zeroLog 0 1 (fun _ => 1) (fun _ => 0) (fun _ => 1 / 2)
      (fun _ => 0) = ExtFloat.nan := by
    norm_num [mixedCombined, mixedRowTerm, mixedYbin, mixedHypothesis, mixedClasses,
      bernoulliTerm, lngaussianTerm, invSigma2, zeroLog, ExtFloat.add, ExtFloat.sub,
      ExtFloat.neg, ExtFloat.mul, ExtFloat.div, ExtFloat.log, List.range_succ]
  constructor
  · rw [h]
    rfl
  · unfold mixedLnlik clampInf
    rw [h]
    decide

/-- C6 (amended): if the combined mixed log-likelihood value is infinite
(`np.isinf`), the method returns negative infinity instead of the infinite
value; a `nan` combined value is returned unchanged. -/
theorem lnlik_infinite_clamped_to_neg_inf (rlog : ℚ → ℚ) (threshold : ℚ)
    (n : ℕ) (ydata yerr proba ymodel : ℕ → ℚ)
    (h : (mixedCombined rlog threshold n ydata yerr proba ymodel).isInf = true) :
    mixedLnlik rlog threshold n ydata yerr proba ymodel = ExtFloat.ninf := by
  unfold mixedLnlik clampInf
  simp [h]

/-- C6 witness: one dead-observed row with classifier probability `1` makes the
Bernoulli term `log(1-1) = -inf`, the combined value `+inf`, and the method
returns `-inf`. -/
theorem lnlik_infinite_clamped_witness :
    (mixedCombined zeroLog 0 1 (fun _ => 0) (fun _ => 1) (fun _ => 1)
        (fun _ => 5)).isInf = true
    ∧ mixedLnlik zeroLog 0 1 (fun _ => 0) (fun _ => 1) (fun _ => 1)
        (fun _ => 5) = ExtFloat.ninf := by
  have h : mixedCombined zeroLog 0 1 (fun _ => 0) (fun _ => 1) (fun _ => 1)
      (fun _ => 5) = ExtFloat.pinf := by
    norm_num [mixedCombined, mixedRowTerm, mixedYbin, mixedHypothesis, mixedClasses,
      bernoulliTerm, lngaussianTerm, invSigma2, zeroLog, ExtFloat.add, ExtFloat.sub,
      ExtFloat.neg, ExtFloat.mul, ExtFloat.div, ExtFloat.log, List.range_succ]
  have hinf : (mixedCombined zeroLog 0 1 (fun _ => 0) (fun _ => 1) (fun _ => 1)
      (fun _ => 5)).isInf = true := by
    rw [h]
    rfl
  exact ⟨hinf,
    lnlik_infinite_clamped_to_neg_inf zeroLog 0 1 (fun _ => 0) (fun _ => 1)
      (fun _ => 1) (fun _ => 5) hinf⟩

/-- C7: for every `LocalEpistasisModel` whose design matrix is square and
invertible, after `estimate_interactions` the product `X · Interactions.values`
equals the original binary phenotype vector exactly, since the coefficients
are the closed-form inverse of `X` applied to the phenotypes. -/
theorem local_exact_reconstruction {n : ℕ} (X : Matrix (Fin n) (Fin n) ℚ)
    (phenotypes : Fin n → ℚ) (h : IsUnit X.det) :
    X.mulVec (localEstimateInteractions X phenotypes) = phenotypes := by
  unfold localEstimateInteractions
  rw [matInv_eq_inv, Matrix.mulVec_mulVec, Matrix.mul_nonsing_inv _ h,
    Matrix.one_mulVec]

/-- C7 witness: the `1 × 1` design matrix `[[2]]` is invertible and
reconstructs the phenotype vector `[3]` exactly. -/
theorem local_exact_reconstruction_witness :
    IsUnit (!![2] : Matrix (Fin 1) (Fin 1) ℚ).det
    ∧ (!![2] : Matrix (Fin 1) (Fin 1) ℚ).mulVec
        (localEstimateInteractions !![2] ![3]) = ![3] := by
  have hdet : (!![2] : Matrix (Fin 1) (Fin 1) ℚ).det = 2 := by
    simp [Matrix.det_fin_one]
  have h : IsUnit (!![2] : Matrix (Fin 1) (Fin 1) ℚ).det := by
    rw [hdet]
    exact isUnit_iff_ne_zero.mpr (by norm_num)
  exact ⟨h, local_exact_reconstruction !![2] ![3] h⟩

/-- C8 counterexample: the claim asserts exactly one nonzero coefficient (at
the zeroth-order position) for every constant phenotype vector, but for the
constant `0` vector every coefficient — the zeroth included — is `0`, so no
entry is nonzero. -/
theorem global_zero_constant_counterexample :
    ¬ SingleNonzeroAtZero 1 (globalEstimateInteractions 1 (fun _ => 0)) := by
  intro h
  exact h.1 (by simp [globalEstimateInteractions])

/-- C8 (amended): for every `GlobalEpistasisModel` whose phenotype vector is
constant with a nonzero constant `c`, after `estimate_interactions` the
coefficient vector has exactly one nonzero entry, at the zeroth-order
position (where it equals `c`), and zeros at all higher-order positions. -/
theorem global_constant_phenotypes (n : ℕ) (c : ℚ) (hc : c ≠ 0) :
    globalEstimateInteractions n (fun _ => c) 0 = c
    ∧ SingleNonzeroAtZero n (globalEstimateInteractions n (fun _ => c)) := by
  have hv0 : globalEstimateInteractions n (fun _ => c) 0 = c := by
    unfold globalEstimateInteractions
    rw [← Finset.sum_mul]
    have hs := had_row_sum n 0 (by positivity)
    rw [if_pos rfl] at hs
    rw [hs]
    unfold hadamardWeight
    have hc0 : countOnes 0 = 0 := by simp [countOnes]
    rw [hc0]
    have h2 : (2 : ℚ) ^ n ≠ 0 := by positivity
    field_simp
  have hvg : ∀ g, 0 < g → g < 2 ^ n →
      globalEstimateInteractions n (fun _ => c) g = 0 := by
    intro g hg hlt
    unfold globalEstimateInteractions
    rw [← Finset.sum_mul, had_row_sum n g hlt, if_neg (Nat.pos_iff_ne_zero.mp hg),
      zero_mul, mul_zero]
  refine ⟨hv0, ?_, hvg⟩
  rw [hv0]
  exact hc

/-- C8 witness: with one site and constant phenotype `3`, the zeroth-order
coefficient is `3` and the order-one coefficient is `0`. -/
theorem global_constant_phenotypes_witness :
    (3 : ℚ) ≠ 0
    ∧ (globalEstimateInteractions 1 (fun _ => 3) 0 = 3
      ∧ SingleNonzeroAtZero 1 (globalEstimateInteractions 1 (fun _ => 3))) :=
  ⟨by norm_num, global_constant_phenotypes 1 3 (by norm_num)⟩

/-- C9: for every `LocalEpistasisModel` with symmetric (non-log-transformed)
phenotype errors and `0/1` design-matrix entries (the dummy coding
`generate_dv_matrix` produces; the function lives outside `src/`), the
variance of each interaction coefficient — the square of its stored error
bar `sqrt(X @ errors**2)` — equals the sum of the squared design-matrix row
entries weighted by the input phenotype variances. -/
theorem local_error_variance_weighted {n m : ℕ} (X : Matrix (Fin n) (Fin m) ℚ)
    (errors : Fin m → ℚ) (h01 : ∀ i j, X i j = 0 ∨ X i j = 1) (i : Fin n) :
    localErrorVariance X errors i = ∑ j, (X i j) ^ 2 * (errors j) ^ 2 := by
  unfold localErrorVariance
  refine Finset.sum_congr rfl fun j _ => ?_
  rcases h01 i j with h | h <;> rw [h] <;> ring

/-- C9 witness: a concrete `0/1` design matrix and error vector. -/
theorem local_error_variance_weighted_witness :
    (∀ i j, (!![1, 0; 1, 1] : Matrix (Fin 2) (Fin 2) ℚ) i j = 0
      ∨ (!![1, 0; 1, 1] : Matrix (Fin 2) (Fin 2) ℚ) i j = 1)
    ∧ localErrorVariance (!![1, 0; 1, 1] : Matrix (Fin 2) (Fin 2) ℚ) ![2, 3] 1
        = ∑ j, ((!![1, 0; 1, 1] : Matrix (Fin 2) (Fin 2) ℚ) 1 j) ^ 2
            * ((![2, 3] : Fin 2 → ℚ) j) ^ 2 := by
  have h01 : ∀ i j, (!![1, 0; 1, 1] : Matrix (Fin 2) (Fin 2) ℚ) i j = 0
      ∨ (!![1, 0; 1, 1] : Matrix (Fin 2) (Fin 2) ℚ) i j = 1 := by
    intro i j
    fin_cases i <;> fin_cases j <;> norm_num
  exact ⟨h01, local_error_variance_weighted _ _ h01 1⟩

/-- C10: in `hypothesis` and `lnlikelihood`, a row is classified dead (its
model output zeroed, which is the value entering the Gaussian term) if and
only if the classifier's predicted probability for that row is below `0.5`;
the `0.5` cutoff is a hardcoded literal — `mixedClasses` takes no threshold —
while the construction-time `threshold` parameter appears in these methods
only in the binarization of the observed phenotypes. -/
theorem dead_cutoff_half_hardcoded (proba ymodel ydata : ℕ → ℚ)
    (threshold : ℚ) (i : ℕ) :
    (mixedClasses proba i = 0 ↔ proba i < 1 / 2)
    ∧ mixedHypothesis proba ymodel i = (if proba i < 1 / 2 then 0 else ymodel i)
    ∧ mixedYbin threshold ydata i = (if threshold < ydata i then 1 else 0) := by
  refine ⟨?_, ?_, rfl⟩
  · unfold mixedClasses
    by_cases hp : proba i < 1 / 2 <;> simp [hp]
  · unfold mixedHypothesis mixedClasses
    by_cases hp : proba i < 1 / 2 <;> simp [hp]

end Epistasis
